import Mathlib

/-!
Verification development for the wordnet crawl-frontier worker
(`backend/scraper.py`).  The Python module is shallowly embedded: module
level mutable globals become fields of explicit state records, Redis lists
become Lean lists (head = list head, `lpop` pops the head, `rpush` appends
to the tail), and Python truthiness of optional strings is modelled
explicitly.  Randomness (`random.uniform`, `random.random`) is modelled by
an explicit stream `u : Nat → ℚ` of draws in `[0,1]`, consumed in program
order at each call site.
-/

/-! ### Python string primitives (on `List Char`) -/

/-- A term travelling through the frontier queue: a Python string,
modelled as its list of characters. -/
abbrev Term := List Char

/-- Python `s.lower()`. -/
def pyLower (s : Term) : Term := s.map Char.toLower

/-- Python `s.strip()`: remove leading and trailing whitespace. -/
def pyStrip (s : Term) : Term :=
  ((s.dropWhile fun c => c.isWhitespace).reverse.dropWhile fun c => c.isWhitespace).reverse

/-- Python `s.replace(a, b)` for single characters `a`, `b`. -/
def pyReplace (a b : Char) (s : Term) : Term :=
  s.map fun c => if c = a then b else c

/-- Python `s.replace(a, "")` for a single character `a`: delete it. -/
def pyDelete (a : Char) (s : Term) : Term := s.filter fun c => ¬ c = a

/-- Python `s.isalpha()`: non-empty and every character alphabetic. -/
def pyIsAlpha (s : Term) : Bool := !s.isEmpty && s.all Char.isAlpha

/-- Does `needle` start `hay`? (helper for Python's substring test). -/
def listStartsWith : List Char → List Char → Bool
  | [], _ => true
  | _ :: _, [] => false
  | a :: as, b :: bs => a = b && listStartsWith as bs

/-- Python `needle in hay` for strings: contiguous substring test. -/
def listContainsSub (needle : List Char) : List Char → Bool
  | [] => listStartsWith needle []
  | c :: rest => listStartsWith needle (c :: rest) || listContainsSub needle rest

/-- Python `needle in hay` on `String`s. -/
def pyInStr (needle hay : String) : Bool := listContainsSub needle.toList hay.toList

/-! ### Proxy pool manager (`scraper.py` lines 46-122)

The module globals `current_proxy`, `proxy_failure_count`,
`scraper_instance` and the two Redis lists `proxy_queue` (active pool) and
`proxy_failed` (quarantine pool) form the state. -/

/-- `MAX_PROXY_FAILURES = 3` (line 50). -/
def MAX_PROXY_FAILURES : Nat := 3

/-- State of the proxy subsystem for one worker. -/
structure ProxyState where
  currentProxy : Option String
  proxyFailureCount : Nat
  scraperInstance : Option Unit
  proxyQueue : List String
  proxyFailed : List String
deriving DecidableEq, Repr

/-- Python truthiness of `Optional[str]`: `None` and `""` are falsy. -/
def pyTruthy : Option String → Bool
  | none => false
  | some s => !s.isEmpty

/-- Redis `lpop`: pop the head of a list, `none` if empty. -/
def lpop : List String → Option String × List String
  | [] => (none, [])
  | h :: t => (some h, t)

/-- `mark_proxy_failed` (lines 92-113): increment the failure counter; at
the threshold, `rpush` the proxy onto `proxy_failed`, clear the sticky
proxy and cached scraper, and reset the counter. -/
def mark_proxy_failed (s : ProxyState) : ProxyState :=
  match s.currentProxy with
  | none => s
  | some p =>
    if p.isEmpty then s
    else
      let cnt := s.proxyFailureCount + 1
      if MAX_PROXY_FAILURES ≤ cnt then
        { s with proxyFailed := s.proxyFailed ++ [p]
                 currentProxy := none
                 scraperInstance := none
                 proxyFailureCount := 0 }
      else { s with proxyFailureCount := cnt }

/-- The recycle loop of `get_working_proxy` (lines 71-74): `while
llen(proxy_failed) > 0: lpop proxy_failed; if truthy, rpush proxy_queue`.
Arguments: current `proxy_queue`, remaining `proxy_failed`; returns the
final `(proxy_queue, proxy_failed)`. -/
def drainFailedLoop : List String → List String → List String × List String
  | q, [] => (q, [])
  | q, f :: fs => drainFailedLoop (if f.isEmpty then q else q ++ [f]) fs

/-- Lines 62-76 of `get_working_proxy`: `lpop` the active pool; if the
popped value is falsy and the quarantine pool is non-empty, drain the
quarantine pool back into the active pool and `lpop` again.  Returns the
popped value and the final `(proxy_queue, proxy_failed)`. -/
def refillPop (q f : List String) : Option String × List String × List String :=
  let r0 := lpop q
  if !pyTruthy r0.1 then
    if 0 < f.length then
      let d := drainFailedLoop r0.2 f
      let r' := lpop d.1
      (r'.1, r'.2, d.2)
    else (r0.1, r0.2, f)
  else (r0.1, r0.2, f)

/-- `get_working_proxy` (lines 53-90).  Returns the proxy handed to the
caller (or `none` for a direct connection) and the updated state. -/
def get_working_proxy (s : ProxyState) : Option String × ProxyState :=
  if pyTruthy s.currentProxy && decide (s.proxyFailureCount < MAX_PROXY_FAILURES) then
    (s.currentProxy, s)
  else
    let r1 := refillPop s.proxyQueue s.proxyFailed
    if pyTruthy r1.1 then
      (r1.1, { s with currentProxy := r1.1
                      proxyFailureCount := 0
                      proxyQueue := r1.2.1
                      proxyFailed := r1.2.2 })
    else
      (none, { s with currentProxy := none
                      proxyQueue := r1.2.1
                      proxyFailed := r1.2.2 })

/-- `create_proxy_scraper` (lines 185-230), proxy-state effect only: call
`get_working_proxy`; after the call the returned proxy always equals
`current_proxy`, so the cached scraper is reused exactly when one exists,
and otherwise a fresh instance is created. -/
def create_proxy_scraper (s : ProxyState) : ProxyState :=
  let s' := (get_working_proxy s).2
  if s'.scraperInstance.isSome then s' else { s' with scraperInstance := some () }

/-- One proxy-subsystem operation performed by a worker. -/
inductive ProxyOp where
  | getProxy : ProxyOp
  | markFailed : ProxyOp
deriving DecidableEq, Repr

/-- Apply one operation to the proxy state. -/
def applyProxyOp (s : ProxyState) : ProxyOp → ProxyState
  | ProxyOp.getProxy => (get_working_proxy s).2
  | ProxyOp.markFailed => mark_proxy_failed s

/-- Run a sequence of proxy operations from a state. -/
def runProxyOps (s : ProxyState) (ops : List ProxyOp) : ProxyState :=
  ops.foldl applyProxyOp s

/-- Bootstrap state (`init_proxies.py`): `proxy_queue` holds the proxy
list, `proxy_failed` is cleared, no sticky proxy, counter zero. -/
def initProxyState (boot : List String) : ProxyState :=
  { currentProxy := none
    proxyFailureCount := 0
    scraperInstance := none
    proxyQueue := boot
    proxyFailed := [] }

/-- Everywhere a proxy record can live in one worker's view: active pool,
then quarantine pool, then the sticky slot. -/
def proxyPlaces (s : ProxyState) : List String :=
  s.proxyQueue ++ s.proxyFailed ++ s.currentProxy.toList

/-! ### Persistence and dedup (`scraper.py` lines 339-372) -/

/-- An exception raised by `collection.insert_one`. -/
inductive PyExc where
  | dupKeyError : PyExc
  | otherError : String → PyExc
deriving DecidableEq, Repr

/-- An exception raised by `collection.count_documents`. -/
inductive MongoErr where
  | err : String → MongoErr
deriving DecidableEq, Repr

/-- One parsed sense of a term (`parse_lemma` output shape). -/
structure Lemma where
  term : Term
  partOfSpeech : Term
  defn : Term
  synonyms : List Term
deriving DecidableEq, Repr

/-- `safe_insert_lemma` (lines 339-351): `insert_one` is the store's
behaviour `ins`; `DuplicateKeyError` and every other exception are caught
and reported as a failed insert (`false`), success as `true`. -/
def safe_insert_lemma (ins : Lemma → Except PyExc Unit) (l : Lemma) : Bool :=
  match ins l with
  | Except.ok _ => true
  | Except.error PyExc.dupKeyError => false
  | Except.error (PyExc.otherError _) => false

/-- `check_word_exists_in_mongo` (lines 363-372): clean the word
(`lower().strip()`), query the store; if the query raises, return `True`
("assume it exists to avoid errors"). -/
def check_word_exists_in_mongo (store : Term → Except MongoErr Bool) (word : Term) : Bool :=
  match store (pyStrip (pyLower word)) with
  | Except.ok b => b
  | Except.error _ => true

/-! ### Frontier expander (`scraper.py` lines 374-415) -/

/-- The per-synonym normalization in `process_synonyms_for_new_words`
(line 387): `synonym.lower().strip().replace("-", " ")`. -/
def cleanSynonym (s : Term) : Term := pyReplace '-' ' ' (pyStrip (pyLower s))

/-- The validity test of lines 390-392, on the cleaned synonym: non-empty,
length at least 2, and alphabetic once spaces (and the already-removed
hyphens) are deleted. -/
def validSynonym (w : Term) : Bool :=
  !(w.isEmpty || decide (w.length < 2) || !pyIsAlpha (pyDelete '-' (pyDelete ' ' w)))

/-- The filtering loop of `process_synonyms_for_new_words` (lines
385-403), accumulating `words_to_add` in order: for each synonym, clean
it, skip it if invalid, already in the queue snapshot, or reported present
by the store; otherwise batch it. -/
def synFilterLoop (store : Term → Except MongoErr Bool) (queueWords : List Term) :
    List Term → List Term
  | [] => []
  | syn :: rest =>
    let w := cleanSynonym syn
    if !validSynonym w then synFilterLoop store queueWords rest
    else if queueWords.contains w then synFilterLoop store queueWords rest
    else if check_word_exists_in_mongo store w then synFilterLoop store queueWords rest
    else w :: synFilterLoop store queueWords rest

/-- `process_synonyms_for_new_words` (lines 374-415): returns the batched
`words_to_add` list; the caller's queue becomes `queue ++ words_to_add`
via the single bulk `rpush` of line 409. -/
def process_synonyms_for_new_words (store : Term → Except MongoErr Bool)
    (queueWords : List Term) (synonyms : List Term) : List Term :=
  synFilterLoop store queueWords synonyms

/-- The bulk push of lines 405-413: `rpush("word_queue", *words_to_add)`,
performed once, only when the batch is non-empty. -/
def pushNewWords (queue words : List Term) : List Term :=
  if words.isEmpty then queue else queue ++ words

/-! ### Fetch with backoff (`scraper.py` lines 249-309)

The HTTP world is a function `resps : Nat → Resp` giving the response of
each attempt; randomness is the stream `u` of `[0,1]` draws, one per
`random.uniform` call, consumed left to right; every externally visible
action is recorded in an event trace. -/

/-- The response observed by one fetch attempt. -/
inductive Resp where
  | status : Nat → String → Resp
  | exc : String → Resp
deriving DecidableEq, Repr

/-- `random.uniform a b` given the `[0,1]` draw `v`. -/
def uniformDraw (a b v : ℚ) : ℚ := a + v * (b - a)

/-- Observable worker events. -/
inductive Ev where
  | getScraper : Ev
  | httpGet : Nat → Ev
  | sleepFor : ℚ → Ev
  | markFailedCall : Ev
  | insertAttempt : Term → Ev
  | skipWord : Term → Ev
  | giveUpWord : Term → Ev
  | requeueWord : Term → Ev
deriving DecidableEq, Repr

/-- Worker state threaded through one iteration: proxy subsystem, the
`word_queue` list, the next index into the random stream, and the trace of
events so far. -/
structure WSt where
  proxy : ProxyState
  wordQueue : List Term
  ridx : Nat
  trace : List Ev
deriving DecidableEq, Repr

/-- The `for attempt in range(max_retries)` loop of
`fetch_html_with_backoff` (lines 255-309), recursing over the list of
remaining attempt indices (`range(max_retries)` at the start); falling off
the list is the loop ending without a document (line 309). -/
def fetchLoop (u : Nat → ℚ) (resps : Nat → Resp) (maxRetries : Nat) :
    List Nat → WSt → Option String × WSt
  | [], st => (none, st)
  | attempt :: restA, st =>
    let st := { st with trace := st.trace ++ [Ev.httpGet attempt] }
    match resps attempt with
    | Resp.exc msg =>
      let w := uniformDraw 3 10 (u st.ridx) + (attempt : ℚ) * uniformDraw 2 6 (u (st.ridx + 1))
      let st := { st with ridx := st.ridx + 2 }
      let st :=
        if pyInStr "ProxyError" msg || pyInStr "ConnectionError" msg then
          let st := { st with proxy := mark_proxy_failed st.proxy
                              trace := st.trace ++ [Ev.markFailedCall] }
          { st with proxy := create_proxy_scraper st.proxy
                    trace := st.trace ++ [Ev.getScraper] }
        else st
      if attempt < maxRetries - 1 then
        fetchLoop u resps maxRetries restA
          { st with trace := st.trace ++ [Ev.sleepFor w] }
      else (none, st)
    | Resp.status code text =>
      if code = 200 then (some text, st)
      else if code = 429 then
        let w := uniformDraw 10 30 (u st.ridx) + (attempt : ℚ) * uniformDraw 5 15 (u (st.ridx + 1))
        let st := { st with ridx := st.ridx + 2, trace := st.trace ++ [Ev.sleepFor w] }
        fetchLoop u resps maxRetries restA st
      else if code = 407 ∨ code = 502 ∨ code = 503 ∨ code = 504 then
        let st := { st with proxy := mark_proxy_failed st.proxy
                            trace := st.trace ++ [Ev.markFailedCall] }
        let w := uniformDraw 5 15 (u st.ridx)
        let st := { st with ridx := st.ridx + 1, trace := st.trace ++ [Ev.sleepFor w] }
        let st := { st with proxy := create_proxy_scraper st.proxy
                            trace := st.trace ++ [Ev.getScraper] }
        fetchLoop u resps maxRetries restA st
      else if code = 403 then
        let st := { st with proxy := mark_proxy_failed st.proxy
                            trace := st.trace ++ [Ev.markFailedCall] }
        let w := uniformDraw 20 60 (u st.ridx)
        let st := { st with ridx := st.ridx + 1, trace := st.trace ++ [Ev.sleepFor w] }
        let st := { st with proxy := create_proxy_scraper st.proxy
                            trace := st.trace ++ [Ev.getScraper] }
        fetchLoop u resps maxRetries restA st
      else (none, st)

/-- `fetch_html_with_backoff` (lines 249-309): acquire a scraper (and
hence a proxy) once before the loop, then run the attempt loop over
`range(max_retries)`. -/
def fetch_html_with_backoff (u : Nat → ℚ) (resps : Nat → Resp) (maxRetries : Nat)
    (st : WSt) : Option String × WSt :=
  let st := { st with proxy := create_proxy_scraper st.proxy
                      trace := st.trace ++ [Ev.getScraper] }
  fetchLoop u resps maxRetries (List.range maxRetries) st

/-! ### Main loop body (`scraper.py` lines 417-490) -/

/-- Result of the per-lemma batch loop of `main` (lines 468-477). -/
structure BatchRes where
  successCount : Nat
  newWords : Nat
  queue : List Term
  trace : List Ev
deriving DecidableEq, Repr

/-- The batch loop of `main` (lines 472-477): for each lemma, attempt
`safe_insert_lemma`; on success, expand its synonyms against the current
queue contents and bulk-push the batch.  Failures affect only their own
lemma; the loop continues. -/
def processLemmasBatch (ins : Lemma → Except PyExc Unit)
    (store : Term → Except MongoErr Bool) (queue : List Term) :
    List Lemma → BatchRes
  | [] => { successCount := 0, newWords := 0, queue := queue, trace := [] }
  | l :: ls =>
    if safe_insert_lemma ins l then
      let added := process_synonyms_for_new_words store queue l.synonyms
      let rest := processLemmasBatch ins store (pushNewWords queue added) ls
      { successCount := rest.successCount + 1
        newWords := added.length + rest.newWords
        queue := rest.queue
        trace := Ev.insertAttempt l.term :: rest.trace }
    else
      let rest := processLemmasBatch ins store queue ls
      { rest with trace := Ev.insertAttempt l.term :: rest.trace }

/-- `human_like_delay` (lines 232-243): base delay `uniform(1.5, 4.0)`,
plus `uniform(2.0, 8.0)` when the extra-pause draw is below `0.15`.
Returns the total slept amount and the new random-stream index. -/
def human_like_delay (u : Nat → ℚ) (ridx : Nat) : ℚ × Nat :=
  let base := uniformDraw (3/2) 4 (u ridx)
  if u (ridx + 1) < 3/20 then (base + uniformDraw 2 8 (u (ridx + 2)), ridx + 3)
  else (base, ridx + 2)

/-- One iteration of `main`'s `while True` body after a word has been
popped from `word_queue` (lines 442-483): maybe skip the word, pace,
fetch; on total fetch failure either give the word up or re-push it;
otherwise parse, insert the batch and sleep briefly. -/
def mainIteration (u : Nat → ℚ) (resps : Nat → Resp)
    (parse : Term → String → List Lemma)
    (ins : Lemma → Except PyExc Unit) (store : Term → Except MongoErr Bool)
    (word : Term) (st : WSt) : WSt :=
  let sdraw := u st.ridx
  let st := { st with ridx := st.ridx + 1 }
  if sdraw < 3/100 then { st with trace := st.trace ++ [Ev.skipWord word] }
  else
    let hd := human_like_delay u st.ridx
    let st := { st with ridx := hd.2, trace := st.trace ++ [Ev.sleepFor hd.1] }
    let fr := fetch_html_with_backoff u resps 3 st
    match fr.1 with
    | none =>
      let g := u fr.2.ridx
      let st := { fr.2 with ridx := fr.2.ridx + 1 }
      if g < 7/10 then { st with trace := st.trace ++ [Ev.giveUpWord word] }
      else { st with wordQueue := st.wordQueue ++ [word]
                     trace := st.trace ++ [Ev.requeueWord word] }
    | some body =>
      let st := fr.2
      let lemmas := parse word body
      if lemmas.isEmpty then st
      else
        let res := processLemmasBatch ins store st.wordQueue lemmas
        let st := { st with wordQueue := res.queue, trace := st.trace ++ res.trace }
        let d2 := uniformDraw (1/2) 2 (u st.ridx)
        { st with ridx := st.ridx + 1, trace := st.trace ++ [Ev.sleepFor d2] }

/-- Index into the random stream of the give-up draw (`random.random()` of
line 455) for an iteration that reaches the fetch and fails every attempt
with a status error: one draw for the skip check, two or three inside
`human_like_delay`, then one per fetch attempt (3 on the all-503 path). -/
def giveUpDrawIdx (u : Nat → ℚ) (st : WSt) : Nat :=
  (human_like_delay u (st.ridx + 1)).2 + 1 + 1 + 1

/-! ### Top-level loop and bootstrap (`scraper.py` lines 140-162, 485-490) -/

/-- How one iteration of the `while True` body ends: normally, with an
unclassified exception, or with the shutdown signal
(`KeyboardInterrupt`). -/
inductive IterOutcome where
  | normal : IterOutcome
  | unexpected : String → IterOutcome
  | shutdownSignal : IterOutcome
deriving DecidableEq, Repr

/-- What the loop does next. -/
inductive LoopAct where
  | continueLoop : Option ℚ → LoopAct
  | exitProc : Nat → LoopAct
deriving DecidableEq, Repr

/-- The exception handling of `main`'s loop body (lines 485-490): a
`KeyboardInterrupt` runs `signal_handler`, which calls `sys.exit(0)`; any
other exception is logged, the worker sleeps `uniform(8, 15)`, and the
loop continues; a normal iteration just continues. -/
def mainLoopReact (v : ℚ) : IterOutcome → LoopAct
  | IterOutcome.normal => LoopAct.continueLoop none
  | IterOutcome.unexpected _ => LoopAct.continueLoop (some (uniformDraw 8 15 v))
  | IterOutcome.shutdownSignal => LoopAct.exitProc 0

/-- Run `n` iterations of the `while True` loop, iteration `i` ending
with outcome `outs i` and recovery draw `u i`; returns the exit code if
the process terminated within those iterations, `none` if it is still
running. -/
def runMainLoop (u : Nat → ℚ) (outs : Nat → IterOutcome) : Nat → Option Nat
  | 0 => none
  | n + 1 =>
    match runMainLoop u outs n with
    | some c => some c
    | none =>
      match mainLoopReact (u n) (outs n) with
      | LoopAct.continueLoop _ => none
      | LoopAct.exitProc c => some c

/-- `setup_connections` (lines 140-162): a failed Redis ping or a failed
MongoDB ping each call `sys.exit(1)` immediately; otherwise the collection
handle is returned. -/
def setup_connections (redisOk mongoOk : Bool) : Except Nat Unit :=
  if !redisOk then Except.error 1
  else if !mongoOk then Except.error 1
  else Except.ok ()

/-! ### Concrete fixtures used by witnesses and counterexamples -/

/-- A store whose existence query always raises. -/
def downStore : Term → Except MongoErr Bool := fun _ => Except.error (MongoErr.err "down")

/-- A store whose existence query always answers "absent". -/
def okStore : Term → Except MongoErr Bool := fun _ => Except.ok false

/-- A constant random stream. -/
def constU (v : ℚ) : Nat → ℚ := fun _ => v

/-- A server answering 503 to every attempt. -/
def resps503 : Nat → Resp := fun _ => Resp.status 503 ""

/-- A server answering 429, 429, then 200 with the given body. -/
def resps429twice (body : String) : Nat → Resp := fun n =>
  if n < 2 then Resp.status 429 "" else Resp.status 200 body

/-- A parser finding no lemmas. -/
def noParse : Term → String → List Lemma := fun _ _ => []

/-- An insert that always succeeds. -/
def okInsert : Lemma → Except PyExc Unit := fun _ => Except.ok ()

/-- A run in which every iteration ends normally. -/
def outsNormal : Nat → IterOutcome := fun _ => IterOutcome.normal

/-- A concrete word. -/
def cwWord : Term := ['d', 'o', 'g']

/-- A concrete worker state: no sticky proxy, empty pools, empty queue. -/
def cwSt : WSt :=
  { proxy := { currentProxy := none, proxyFailureCount := 0, scraperInstance := none,
               proxyQueue := [], proxyFailed := [] }
    wordQueue := [], ridx := 0, trace := [] }

/-! ## Helper lemmas -/

theorem mark_fixed_of_no_current (s : ProxyState) (h : s.currentProxy = none) :
    mark_proxy_failed s = s := by
  simp [mark_proxy_failed, h]

theorem mark_iter_fixed (s : ProxyState) (h : s.currentProxy = none) :
    ∀ m, mark_proxy_failed^[m] s = s := by
  intro m
  induction m with
  | zero => rfl
  | succ n ih => rw [Function.iterate_succ_apply', ih, mark_fixed_of_no_current s h]

theorem mark_from_zero (p : String) (scr : Option Unit) (q f : List String)
    (hp : p.isEmpty = false) (k : Nat) :
    mark_proxy_failed^[k] ⟨some p, 0, scr, q, f⟩ =
      if k < 3 then ⟨some p, k, scr, q, f⟩
      else ⟨none, 0, none, q, f ++ [p]⟩ := by
  have h1 : mark_proxy_failed ⟨some p, 0, scr, q, f⟩ = ⟨some p, 1, scr, q, f⟩ := by
    simp [mark_proxy_failed, hp, MAX_PROXY_FAILURES]
  have h2 : mark_proxy_failed ⟨some p, 1, scr, q, f⟩ = ⟨some p, 2, scr, q, f⟩ := by
    simp [mark_proxy_failed, hp, MAX_PROXY_FAILURES]
  have h3 : mark_proxy_failed ⟨some p, 2, scr, q, f⟩ = ⟨none, 0, none, q, f ++ [p]⟩ := by
    simp [mark_proxy_failed, hp, MAX_PROXY_FAILURES]
  rcases Nat.lt_or_ge k 3 with hk | hk
  · interval_cases k
    · simp
    · simp [Function.iterate_one, h1]
    · rw [show (2 : Nat) = 1 + 1 from rfl, Function.iterate_add_apply]
      rw [Function.iterate_one, h1, h2]
      simp
  · obtain ⟨m, rfl⟩ : ∃ m, k = m + 3 := ⟨k - 3, by omega⟩
    rw [Function.iterate_add_apply]
    have h30 : mark_proxy_failed^[3] (⟨some p, 0, scr, q, f⟩ : ProxyState) =
        ⟨none, 0, none, q, f ++ [p]⟩ := by
      rw [show (3 : Nat) = 1 + 1 + 1 from rfl, Function.iterate_add_apply,
        Function.iterate_add_apply]
      rw [Function.iterate_one, h1, h2, h3]
    rw [h30, mark_iter_fixed _ rfl]
    simp [Nat.not_lt.mpr (by omega : 3 ≤ m + 3)]

/-! ## C1 -/

/-- Claim C1: starting from a freshly assigned sticky proxy `p` (failure
counter 0), a sequence of `k` `mark_proxy_failed` calls with no
intervening reassignment leaves the proxy sticky with counter `k` while
`k < 3`, and from the 3rd call on the state is the quarantined one: `p`
appended to the quarantine pool exactly once, sticky proxy and cached
scraper cleared, counter reset to 0 — so every call after the 3rd changes
nothing. -/
theorem markFailed_quarantines_exactly_on_third (s : ProxyState) (p : String)
    (hc : s.currentProxy = some p) (hp : p.isEmpty = false)
    (h0 : s.proxyFailureCount = 0) (k : Nat) :
    mark_proxy_failed^[k] s =
      if k < 3 then { s with proxyFailureCount := k }
      else { s with currentProxy := none
                    scraperInstance := none
                    proxyFailureCount := 0
                    proxyFailed := s.proxyFailed ++ [p] } := by
  obtain ⟨cur, cnt, scr, q, f⟩ := s
  simp only at hc h0
  subst hc h0
  exact mark_from_zero p scr q f hp k

/-- Witness for C1 at a concrete state: five consecutive failures of the
sticky proxy produce exactly one quarantine entry, on the 3rd call. -/
theorem markFailed_quarantines_exactly_on_third_witness :
    mark_proxy_failed^[5]
        (⟨some "h:1:u:w", 0, some (), ["a:2:u:w"], ["b:3:u:w"]⟩ : ProxyState) =
      ⟨none, 0, none, ["a:2:u:w"], ["b:3:u:w", "h:1:u:w"]⟩ := by
  have h := markFailed_quarantines_exactly_on_third
    ⟨some "h:1:u:w", 0, some (), ["a:2:u:w"], ["b:3:u:w"]⟩ "h:1:u:w" rfl rfl rfl 5
  simpa using h

theorem isEmpty_false_of_ne (s : String) (h : s ≠ "") : s.isEmpty = false := by
  rw [Bool.eq_false_iff]
  intro hh
  exact h (String.isEmpty_iff s |>.mp hh)

theorem ne_of_isEmpty_false (s : String) (h : s.isEmpty = false) : s ≠ "" := by
  intro hh
  rw [hh] at h
  exact absurd ((String.isEmpty_iff "").mpr rfl) (by simp [h])

/-- Draining a quarantine pool with no empty-string entry appends it
wholesale to the active pool. -/
theorem drainFailedLoop_clean :
    ∀ f q, (∀ x ∈ f, x ≠ "") → drainFailedLoop q f = (q ++ f, []) := by
  intro f
  induction f with
  | nil => intro q _; simp [drainFailedLoop]
  | cons a t ih =>
    intro q hcl
    have ha : a.isEmpty = false := isEmpty_false_of_ne a (hcl a (by simp))
    rw [drainFailedLoop, if_neg (by simp [ha])]
    rw [ih (q ++ [a]) (fun x hx => hcl x (by simp [hx]))]
    simp

theorem refillPop_nil_nil : refillPop [] [] = (none, [], []) := rfl

theorem refillPop_nil_cons (qh : String) (qt : List String)
    (hcl : ∀ x ∈ qh :: qt, x ≠ "") :
    refillPop [] (qh :: qt) = (some qh, qt, []) := by
  rw [refillPop]
  simp only [lpop, pyTruthy]
  rw [if_pos (by simp), if_pos (by simp)]
  rw [drainFailedLoop_clean (qh :: qt) [] hcl]
  simp [lpop, pyTruthy, isEmpty_false_of_ne qh (hcl qh (by simp))]

theorem refillPop_cons (h : String) (t f : List String) (hh : h ≠ "") :
    refillPop (h :: t) f = (some h, t, f) := by
  rw [refillPop]
  simp [lpop, pyTruthy, isEmpty_false_of_ne h hh]

/-! ## C2 -/

/-- Claim C2: with no usable sticky proxy and an empty active pool,
`get_working_proxy` drains a non-empty quarantine pool wholesale into the
active pool (quarantine left empty, multiset preserved) and returns the
head of the refilled pool; with both pools empty it returns `none` so the
caller falls back to a direct connection. -/
theorem getProxy_bulk_recycles (s : ProxyState)
    (hns : ¬(pyTruthy s.currentProxy = true ∧ s.proxyFailureCount < MAX_PROXY_FAILURES))
    (hcl : ∀ x ∈ s.proxyFailed, x ≠ "") :
    (∀ qh qt, s.proxyQueue = [] → s.proxyFailed = qh :: qt →
        get_working_proxy s =
          (some qh, { s with currentProxy := some qh
                             proxyFailureCount := 0
                             proxyQueue := qt
                             proxyFailed := [] })) ∧
    (s.proxyQueue = [] → s.proxyFailed = [] →
        get_working_proxy s = (none, { s with currentProxy := none })) := by
  have hg : (pyTruthy s.currentProxy
      && decide (s.proxyFailureCount < MAX_PROXY_FAILURES)) = false := by
    rw [Bool.eq_false_iff]
    intro hcontr
    exact hns (by simpa [Bool.and_eq_true, decide_eq_true_eq] using hcontr)
  constructor
  · intro qh qt hq hf
    have hcl' : ∀ x ∈ qh :: qt, x ≠ "" := hf ▸ hcl
    simp only [get_working_proxy, hg, Bool.false_eq_true, if_false, hq, hf]
    rw [refillPop_nil_cons qh qt hcl']
    simp [pyTruthy, isEmpty_false_of_ne qh (hcl' qh (by simp))]
  · intro hq hf
    simp only [get_working_proxy, hg, Bool.false_eq_true, if_false, hq, hf]
    rw [refillPop_nil_nil]
    simp [pyTruthy, hq, hf]

/-- Witness for C2 at a concrete state: the two quarantined proxies are
recycled, the first is returned and the second forms the new active
pool. -/
theorem getProxy_bulk_recycles_witness :
    get_working_proxy ⟨none, 0, none, [], ["x:1:u:w", "y:2:u:w"]⟩ =
      (some "x:1:u:w", ⟨some "x:1:u:w", 0, none, ["y:2:u:w"], []⟩) := by
  have h := (getProxy_bulk_recycles ⟨none, 0, none, [], ["x:1:u:w", "y:2:u:w"]⟩
    (by simp [pyTruthy]) (by decide)).1 "x:1:u:w" ["y:2:u:w"] rfl rfl
  simpa using h

/-! ## C10 -/

theorem getProxy_assign_fields (s : ProxyState) (p : String)
    (hns : ¬(pyTruthy s.currentProxy = true ∧ s.proxyFailureCount < MAX_PROXY_FAILURES))
    (hres : (get_working_proxy s).1 = some p) :
    (get_working_proxy s).2.currentProxy = some p ∧
    (get_working_proxy s).2.proxyFailureCount = 0 ∧
    p.isEmpty = false := by
  have hg : (pyTruthy s.currentProxy
      && decide (s.proxyFailureCount < MAX_PROXY_FAILURES)) = false := by
    rw [Bool.eq_false_iff]
    intro hcontr
    exact hns (by simpa [Bool.and_eq_true, decide_eq_true_eq] using hcontr)
  simp only [get_working_proxy, hg, Bool.false_eq_true, if_false] at hres ⊢
  cases htr : pyTruthy (refillPop s.proxyQueue s.proxyFailed).1 with
  | false =>
    simp only [htr, Bool.false_eq_true, if_false] at hres
    simp at hres
  | true =>
    simp only [htr, eq_self_iff_true, if_true] at hres ⊢
    have h1 : (refillPop s.proxyQueue s.proxyFailed).1 = some p := hres
    rw [h1] at htr
    simp only [pyTruthy, Bool.not_eq_true'] at htr
    simp [h1, htr]

/-- Claim C10: whenever `get_working_proxy` hands out a proxy after the
sticky guard failed (a fresh assignment), the failure counter is 0 at the
moment of assignment, and the new sticky proxy survives any 2 further
`mark_proxy_failed` calls unquarantined, being quarantined exactly on the
3rd — the full failure budget, independent of the previous proxy's
history. -/
theorem getProxy_assigns_zero_counter_full_budget (s : ProxyState) (p : String)
    (hns : ¬(pyTruthy s.currentProxy = true ∧ s.proxyFailureCount < MAX_PROXY_FAILURES))
    (hres : (get_working_proxy s).1 = some p) :
    (get_working_proxy s).2.currentProxy = some p ∧
    (get_working_proxy s).2.proxyFailureCount = 0 ∧
    (∀ k, k < 3 →
      (mark_proxy_failed^[k] (get_working_proxy s).2).currentProxy = some p ∧
      (mark_proxy_failed^[k] (get_working_proxy s).2).proxyFailed
        = (get_working_proxy s).2.proxyFailed) ∧
    (mark_proxy_failed^[3] (get_working_proxy s).2).currentProxy = none ∧
    (mark_proxy_failed^[3] (get_working_proxy s).2).proxyFailed
      = (get_working_proxy s).2.proxyFailed ++ [p] := by
  obtain ⟨hcur, hcnt, hp⟩ := getProxy_assign_fields s p hns hres
  have hs' : (get_working_proxy s).2 =
      (⟨some p, 0, (get_working_proxy s).2.scraperInstance,
        (get_working_proxy s).2.proxyQueue,
        (get_working_proxy s).2.proxyFailed⟩ : ProxyState) := by
    rw [← hcur, ← hcnt]
  refine ⟨hcur, hcnt, ?_, ?_, ?_⟩
  · intro k hk
    rw [hs', mark_from_zero p _ _ _ hp k, if_pos hk]
    exact ⟨rfl, rfl⟩
  · rw [hs', mark_from_zero p _ _ _ hp 3, if_neg (by omega)]
  · rw [hs', mark_from_zero p _ _ _ hp 3, if_neg (by omega)]

/-- Witness for C10 at a concrete state: the freshly assigned proxy has
counter 0, is still sticky after 2 failures, and lands in quarantine on
the 3rd. -/
theorem getProxy_assigns_zero_counter_full_budget_witness :
    (get_working_proxy ⟨none, 0, none, ["p:1:u:w"], []⟩).2.currentProxy = some "p:1:u:w" ∧
    (get_working_proxy ⟨none, 0, none, ["p:1:u:w"], []⟩).2.proxyFailureCount = 0 ∧
    (mark_proxy_failed^[2] (get_working_proxy ⟨none, 0, none, ["p:1:u:w"], []⟩).2).currentProxy
      = some "p:1:u:w" ∧
    (mark_proxy_failed^[3] (get_working_proxy ⟨none, 0, none, ["p:1:u:w"], []⟩).2).proxyFailed
      = (get_working_proxy ⟨none, 0, none, ["p:1:u:w"], []⟩).2.proxyFailed ++ ["p:1:u:w"] := by
  have h := getProxy_assigns_zero_counter_full_budget ⟨none, 0, none, ["p:1:u:w"], []⟩
    "p:1:u:w" (by simp [pyTruthy]) (by decide)
  exact ⟨h.1, h.2.1, (h.2.2.1 2 (by omega)).1, h.2.2.2.2⟩

/-! ## C4 -/

theorem proxyInv_mark (boot : List String) (s : ProxyState)
    (h1 : (proxyPlaces s).Perm boot)
    (h2 : s.currentProxy = none ∨
      ∃ p, s.currentProxy = some p ∧ p ≠ "" ∧ s.proxyFailureCount < MAX_PROXY_FAILURES) :
    (proxyPlaces (mark_proxy_failed s)).Perm boot ∧
    ((mark_proxy_failed s).currentProxy = none ∨
      ∃ p, (mark_proxy_failed s).currentProxy = some p ∧ p ≠ "" ∧
        (mark_proxy_failed s).proxyFailureCount < MAX_PROXY_FAILURES) := by
  rcases h2 with hnone | ⟨p, hp, hne, hlt⟩
  · rw [mark_fixed_of_no_current s hnone]
    exact ⟨h1, Or.inl hnone⟩
  · obtain ⟨cur, cnt, scr, q, f⟩ := s
    simp only at hp hlt
    subst hp
    have hpe : p.isEmpty = false := isEmpty_false_of_ne p hne
    by_cases hc : MAX_PROXY_FAILURES ≤ cnt + 1
    · have hm : mark_proxy_failed ⟨some p, cnt, scr, q, f⟩ = ⟨none, 0, none, q, f ++ [p]⟩ := by
        simp [mark_proxy_failed, hpe, hc]
      rw [hm]
      refine ⟨?_, Or.inl rfl⟩
      simpa [proxyPlaces, List.append_assoc] using h1
    · have hm : mark_proxy_failed ⟨some p, cnt, scr, q, f⟩ = ⟨some p, cnt + 1, scr, q, f⟩ := by
        simp [mark_proxy_failed, hpe, hc]
      rw [hm]
      refine ⟨by simpa [proxyPlaces] using h1, Or.inr ⟨p, rfl, hne, ?_⟩⟩
      simp only [MAX_PROXY_FAILURES] at hc ⊢
      omega

theorem proxyInv_get (boot : List String) (hb : "" ∉ boot) (s : ProxyState)
    (h1 : (proxyPlaces s).Perm boot)
    (h2 : s.currentProxy = none ∨
      ∃ p, s.currentProxy = some p ∧ p ≠ "" ∧ s.proxyFailureCount < MAX_PROXY_FAILURES) :
    (proxyPlaces (get_working_proxy s).2).Perm boot ∧
    ((get_working_proxy s).2.currentProxy = none ∨
      ∃ p, (get_working_proxy s).2.currentProxy = some p ∧ p ≠ "" ∧
        (get_working_proxy s).2.proxyFailureCount < MAX_PROXY_FAILURES) := by
  by_cases hg : (pyTruthy s.currentProxy
      && decide (s.proxyFailureCount < MAX_PROXY_FAILURES)) = true
  · have : (get_working_proxy s).2 = s := by
      simp only [get_working_proxy, hg, if_true]
    rw [this]
    exact ⟨h1, h2⟩
  · have hgf : (pyTruthy s.currentProxy
        && decide (s.proxyFailureCount < MAX_PROXY_FAILURES)) = false := by
      simpa using hg
    have hnone : s.currentProxy = none := by
      rcases h2 with hnone | ⟨p, hp, hne, hlt⟩
      · exact hnone
      · exfalso
        apply hg
        simp [hp, pyTruthy, isEmpty_false_of_ne p hne, hlt]
    obtain ⟨cur, cnt, scr, q, f⟩ := s
    simp only at hnone
    subst hnone
    simp only [proxyPlaces, Option.toList_none, List.append_nil] at h1
    have hmem : ∀ x ∈ q ++ f, x ≠ "" := by
      intro x hx he
      subst he
      exact hb (h1.mem_iff.mp hx)
    cases q with
    | cons qh qt =>
      have hqh : qh ≠ "" := hmem qh (by simp)
      simp only [get_working_proxy, hgf, Bool.false_eq_true, if_false]
      rw [refillPop_cons qh qt f hqh]
      simp only [pyTruthy, isEmpty_false_of_ne qh hqh, Bool.not_false, if_true]
      constructor
      · simp only [proxyPlaces, Option.toList_some]
        refine List.Perm.trans ?_ h1
        exact List.perm_append_singleton qh (qt ++ f)
      · exact Or.inr ⟨qh, rfl, hqh, by simp [MAX_PROXY_FAILURES]⟩
    | nil =>
      cases f with
      | nil =>
        simp only [get_working_proxy, hgf, Bool.false_eq_true, if_false, refillPop_nil_nil]
        simp only [pyTruthy, if_false]
        refine ⟨?_, Or.inl rfl⟩
        simpa [proxyPlaces] using h1
      | cons fh ft =>
        have hcl : ∀ x ∈ fh :: ft, x ≠ "" := fun x hx => hmem x (by simp [hx])
        have hfh : fh ≠ "" := hcl fh (by simp)
        simp only [get_working_proxy, hgf, Bool.false_eq_true, if_false]
        rw [refillPop_nil_cons fh ft hcl]
        simp only [pyTruthy, isEmpty_false_of_ne fh hfh, Bool.not_false, if_true]
        constructor
        · simp only [proxyPlaces, Option.toList_some, List.append_nil]
          have h1' : (fh :: ft).Perm boot := by simpa using h1
          exact List.Perm.trans (List.perm_append_singleton fh ft) h1'
        · exact Or.inr ⟨fh, rfl, hfh, by simp [MAX_PROXY_FAILURES]⟩

theorem proxyInv_runOps (boot : List String) (hb : "" ∉ boot) :
    ∀ (ops : List ProxyOp) (s : ProxyState),
      (proxyPlaces s).Perm boot →
      (s.currentProxy = none ∨
        ∃ p, s.currentProxy = some p ∧ p ≠ "" ∧ s.proxyFailureCount < MAX_PROXY_FAILURES) →
      (proxyPlaces (runProxyOps s ops)).Perm boot := by
  intro ops
  induction ops with
  | nil => intro s h1 _; exact h1
  | cons op rest ih =>
    intro s h1 h2
    have hstep :
        (proxyPlaces (applyProxyOp s op)).Perm boot ∧
        ((applyProxyOp s op).currentProxy = none ∨
          ∃ p, (applyProxyOp s op).currentProxy = some p ∧ p ≠ "" ∧
            (applyProxyOp s op).proxyFailureCount < MAX_PROXY_FAILURES) := by
      cases op with
      | getProxy => exact proxyInv_get boot hb s h1 h2
      | markFailed => exact proxyInv_mark boot s h1 h2
    exact ih (applyProxyOp s op) hstep.1 hstep.2

/-- Counterexample to claim C4 as stated: after bootstrap with one proxy,
a single `get_working_proxy` call leaves that proxy in NEITHER pool — it
is held only in the worker's sticky slot — refuting "each ProxyRecord is
a member of exactly one of the two pools". -/
theorem proxyRecord_in_neither_pool_counterexample :
    "h:1:u:w" ∈ (initProxyState ["h:1:u:w"]).proxyQueue ∧
    "h:1:u:w" ∉ (runProxyOps (initProxyState ["h:1:u:w"]) [ProxyOp.getProxy]).proxyQueue ∧
    "h:1:u:w" ∉ (runProxyOps (initProxyState ["h:1:u:w"]) [ProxyOp.getProxy]).proxyFailed ∧
    (runProxyOps (initProxyState ["h:1:u:w"]) [ProxyOp.getProxy]).currentProxy
      = some "h:1:u:w" := by
  decide

/-- Claim C4 (amended): at every state reachable from bootstrap by
`get_working_proxy` / `mark_proxy_failed` calls, each bootstrapped
ProxyRecord occupies exactly one of three places — the active pool, the
quarantine pool, or the worker's sticky slot; in particular it is in at
most one pool, and it is in neither pool exactly while it is the sticky
proxy. -/
theorem proxyRecord_exactly_one_place (boot : List String) (ops : List ProxyOp)
    (hb : "" ∉ boot) (hnd : boot.Nodup) (p : String) (hp : p ∈ boot) :
    (proxyPlaces (runProxyOps (initProxyState boot) ops)).count p = 1 := by
  have hinit : (proxyPlaces (initProxyState boot)).Perm boot := by
    simp [proxyPlaces, initProxyState]
  have h := proxyInv_runOps boot hb ops (initProxyState boot) hinit (Or.inl rfl)
  rw [h.count_eq]
  exact List.count_eq_one_of_mem hnd hp

/-- Witness for the amended C4: a concrete two-proxy bootstrap followed by
an assignment, three failures (quarantining the first proxy) and a second
assignment; the first proxy is counted exactly once across the three
places. -/
theorem proxyRecord_exactly_one_place_witness :
    (proxyPlaces (runProxyOps (initProxyState ["a:1:u:w", "b:2:u:w"])
        [ProxyOp.getProxy, ProxyOp.markFailed, ProxyOp.markFailed, ProxyOp.markFailed,
         ProxyOp.getProxy])).count "a:1:u:w" = 1 :=
  proxyRecord_exactly_one_place ["a:1:u:w", "b:2:u:w"]
    [ProxyOp.getProxy, ProxyOp.markFailed, ProxyOp.markFailed, ProxyOp.markFailed,
     ProxyOp.getProxy] (by decide) (by decide) "a:1:u:w" (by decide)

/-! ## C3 and C9 -/

theorem synFilterLoop_eq_filter (store : Term → Except MongoErr Bool)
    (queueWords : List Term) :
    ∀ synonyms : List Term,
      synFilterLoop store queueWords synonyms =
        (synonyms.map cleanSynonym).filter
          (fun w => validSynonym w && !queueWords.contains w &&
            !check_word_exists_in_mongo store w) := by
  intro synonyms
  induction synonyms with
  | nil => rfl
  | cons syn rest ih =>
    simp only [synFilterLoop, List.map_cons, List.filter_cons, ih]
    cases hv : validSynonym (cleanSynonym syn) <;>
      cases hq : queueWords.contains (cleanSynonym syn) <;>
        cases hc : check_word_exists_in_mongo store (cleanSynonym syn) <;>
          simp [hv, hq, hc]

/-- Claim C3: the frontier expander batches the cleaned form of a
candidate synonym, in input order, exactly when the cleaned form is valid
(length at least 2, alphabetic once separators are removed), absent from
the point-in-time queue snapshot, and reported absent by the store; in
particular no batched word has `check_word_exists_in_mongo` true, and the
bulk push appends the whole batch, in order, to the queue. -/
theorem expander_enqueues_iff_novel (store : Term → Except MongoErr Bool)
    (queueWords : List Term) (synonyms : List Term) :
    process_synonyms_for_new_words store queueWords synonyms =
      (synonyms.map cleanSynonym).filter
        (fun w => validSynonym w && !queueWords.contains w &&
          !check_word_exists_in_mongo store w) ∧
    (∀ w ∈ process_synonyms_for_new_words store queueWords synonyms,
      check_word_exists_in_mongo store w = false) ∧
    pushNewWords queueWords (process_synonyms_for_new_words store queueWords synonyms)
      = queueWords ++ process_synonyms_for_new_words store queueWords synonyms := by
  refine ⟨synFilterLoop_eq_filter store queueWords synonyms, ?_, ?_⟩
  · intro w hw
    rw [process_synonyms_for_new_words, synFilterLoop_eq_filter] at hw
    have h := (List.mem_filter.mp hw).2
    simp only [Bool.and_eq_true, Bool.not_eq_true'] at h
    exact h.2
  · rw [pushNewWords]
    cases he : (process_synonyms_for_new_words store queueWords synonyms).isEmpty
    · simp
    · simp [List.isEmpty_iff.mp he]

/-- Claim C9: if the store existence query for a (cleaned) word raises,
`check_word_exists_in_mongo` reports the word as existing, so the frontier
expander never batches that word — a store outage fails closed. -/
theorem store_error_fails_closed (store : Term → Except MongoErr Bool)
    (w : Term) (e : MongoErr) (he : store (pyStrip (pyLower w)) = Except.error e) :
    check_word_exists_in_mongo store w = true ∧
    ∀ queueWords synonyms,
      w ∉ process_synonyms_for_new_words store queueWords synonyms := by
  have h1 : check_word_exists_in_mongo store w = true := by
    rw [check_word_exists_in_mongo, he]
  refine ⟨h1, ?_⟩
  intro queueWords synonyms hw
  rw [process_synonyms_for_new_words, synFilterLoop_eq_filter] at hw
  have h := (List.mem_filter.mp hw).2
  simp only [Bool.and_eq_true, Bool.not_eq_true'] at h
  rw [h1] at h
  exact absurd h.2 (by simp)

/-- Witness for C9: with a store whose query always raises, the word
"cat" is reported as existing and is never batched by the expander. -/
theorem store_error_fails_closed_witness :
    check_word_exists_in_mongo downStore ['c', 'a', 't'] = true ∧
    ['c', 'a', 't'] ∉ process_synonyms_for_new_words downStore [] [['c', 'a', 't']] := by
  have h := store_error_fails_closed downStore ['c', 'a', 't'] (MongoErr.err "down") rfl
  exact ⟨h.1, h.2 [] [['c', 'a', 't']]⟩

/-! ## C7 -/

theorem processLemmasBatch_spec (ins : Lemma → Except PyExc Unit)
    (store : Term → Except MongoErr Bool) :
    ∀ (lemmas : List Lemma) (queue : List Term),
      (processLemmasBatch ins store queue lemmas).trace
        = lemmas.map (fun l => Ev.insertAttempt l.term) ∧
      (processLemmasBatch ins store queue lemmas).successCount
        = (lemmas.filter (fun l => safe_insert_lemma ins l)).length := by
  intro lemmas
  induction lemmas with
  | nil => intro queue; exact ⟨rfl, rfl⟩
  | cons l ls ih =>
    intro queue
    cases hs : safe_insert_lemma ins l
    · simpa [processLemmasBatch, hs, List.filter_cons] using
        ih queue
    · have h1 := ih (pushNewWords queue
        (process_synonyms_for_new_words store queue l.synonyms))
      simp [processLemmasBatch, hs, List.filter_cons, h1.1, h1.2, Nat.add_comm]

/-- Claim C7: in the per-Term batch loop every Entry is attempted exactly
once, in order, whatever each insert's outcome — an insert never raises to
the loop: `safe_insert_lemma` reports success exactly when the store
accepted the Entry, and both a duplicate-key condition and any other
persistence error merely report failure for that one Entry, leaving the
rest of the batch attempted. -/
theorem batch_insert_isolated (ins : Lemma → Except PyExc Unit)
    (store : Term → Except MongoErr Bool) (queue : List Term) (lemmas : List Lemma) :
    (processLemmasBatch ins store queue lemmas).trace
      = lemmas.map (fun l => Ev.insertAttempt l.term) ∧
    (processLemmasBatch ins store queue lemmas).successCount
      = (lemmas.filter (fun l => safe_insert_lemma ins l)).length ∧
    (∀ l : Lemma, safe_insert_lemma ins l = true ↔ ins l = Except.ok ()) := by
  refine ⟨(processLemmasBatch_spec ins store lemmas queue).1,
    (processLemmasBatch_spec ins store lemmas queue).2, ?_⟩
  intro l
  cases h : ins l with
  | ok u => cases u; simp [safe_insert_lemma, h]
  | error e => cases e <;> simp [safe_insert_lemma, h]

/-! ## C8 -/

/-- Claim C8: an unexpected exception in an iteration makes the loop
sleep a recovery interval (drawn from `[8, 15]`) and continue; across any
number of iterations the process has exited if and only if some iteration
received the shutdown signal — unclassified exceptions never terminate
it; and a failed Redis or MongoDB ping at bootstrap exits immediately
with code 1. -/
theorem loop_survives_unexpected (v : ℚ) (hv0 : 0 ≤ v) (hv1 : v ≤ 1)
    (u : Nat → ℚ) (outs : Nat → IterOutcome) (n : Nat) :
    (∀ msg, ∃ t, mainLoopReact v (IterOutcome.unexpected msg)
        = LoopAct.continueLoop (some t) ∧ 8 ≤ t ∧ t ≤ 15) ∧
    ((runMainLoop u outs n).isSome ↔ ∃ i < n, outs i = IterOutcome.shutdownSignal) ∧
    (∀ ro mo : Bool, ¬(ro = true ∧ mo = true) →
        setup_connections ro mo = Except.error 1) := by
  refine ⟨?_, ?_, ?_⟩
  · intro msg
    refine ⟨uniformDraw 8 15 v, rfl, ?_, ?_⟩
    · rw [uniformDraw]; nlinarith
    · rw [uniformDraw]; nlinarith
  · induction n with
    | zero => simp [runMainLoop]
    | succ m ih =>
      rw [runMainLoop]
      cases hr : runMainLoop u outs m with
      | some c =>
        rw [hr] at ih
        simp only [Option.isSome_some] at ih ⊢
        constructor
        · intro _
          obtain ⟨i, hi, he⟩ := ih.mp trivial
          exact ⟨i, Nat.lt_succ_of_lt hi, he⟩
        · intro _
          trivial
      | none =>
        rw [hr] at ih
        simp only [Option.isSome_none] at ih
        cases ho : outs m with
        | normal =>
          simp only [ho, mainLoopReact, Option.isSome_none]
          constructor
          · intro hcontr
            exact absurd hcontr (by simp)
          · rintro ⟨i, hi, he⟩
            rcases Nat.lt_succ_iff_lt_or_eq.mp hi with h' | rfl
            · exact absurd (ih.mpr ⟨i, h', he⟩) (by simp)
            · rw [ho] at he
              exact absurd he (by simp)
        | unexpected msg =>
          simp only [ho, mainLoopReact, Option.isSome_none]
          constructor
          · intro hcontr
            exact absurd hcontr (by simp)
          · rintro ⟨i, hi, he⟩
            rcases Nat.lt_succ_iff_lt_or_eq.mp hi with h' | rfl
            · exact absurd (ih.mpr ⟨i, h', he⟩) (by simp)
            · rw [ho] at he
              exact absurd he (by simp)
        | shutdownSignal =>
          simp only [ho, mainLoopReact, Option.isSome_some]
          constructor
          · intro _
            exact ⟨m, Nat.lt_succ_self m, ho⟩
          · intro _
            trivial
  · intro ro mo h
    cases ro <;> cases mo
    · rfl
    · rfl
    · rfl
    · exact absurd ⟨rfl, rfl⟩ h

/-- Witness for C8: at concrete draw 1/2, normal iterations never
terminate a 5-iteration run, an unexpected exception continues with a
recovery sleep in `[8, 15]`, and bootstrap with a failed Redis ping exits
with code 1. -/
theorem loop_survives_unexpected_witness :
    (∀ msg, ∃ t, mainLoopReact (1/2) (IterOutcome.unexpected msg)
        = LoopAct.continueLoop (some t) ∧ 8 ≤ t ∧ t ≤ 15) ∧
    ((runMainLoop (constU (1/2)) outsNormal 5).isSome ↔
      ∃ i < 5, outsNormal i = IterOutcome.shutdownSignal) ∧
    (∀ ro mo : Bool, ¬(ro = true ∧ mo = true) →
        setup_connections ro mo = Except.error 1) :=
  loop_survives_unexpected (1/2) (by norm_num) (by norm_num) (constU (1/2)) outsNormal 5

/-! ## C5 -/

theorem fetch_429_429_200_run (u : Nat → ℚ) (st : WSt) (body : String) :
    fetch_html_with_backoff u (resps429twice body) 3 st =
      (some body,
        { st with proxy := create_proxy_scraper st.proxy
                  ridx := st.ridx + 2 + 2
                  trace := st.trace ++ [Ev.getScraper, Ev.httpGet 0,
                    Ev.sleepFor (uniformDraw 10 30 (u st.ridx)),
                    Ev.httpGet 1,
                    Ev.sleepFor (uniformDraw 10 30 (u (st.ridx + 2))
                      + uniformDraw 5 15 (u (st.ridx + 2 + 1))),
                    Ev.httpGet 2] }) := by
  rw [fetch_html_with_backoff, show List.range 3 = [0, 1, 2] from rfl]
  simp [fetchLoop, resps429twice]

/-- Claim C5: on the response sequence [429, 429, 200], the fetch sleeps
at least the minimum rate-limit delay (10) before each of the two retries,
makes no `mark_proxy_failed` call and no scraper/proxy rotation beyond the
initial acquisition (the proxy state after the call is exactly the state
after the initial acquisition), and returns the parsed document on the 3rd
attempt (`httpGet 2`), not by exhausting the budget. -/
theorem fetch_429_backoff_no_rotation (u : Nat → ℚ) (hu : ∀ n, 0 ≤ u n ∧ u n ≤ 1)
    (st : WSt) (body : String) :
    ∃ w₀ w₁,
      fetch_html_with_backoff u (resps429twice body) 3 st =
        (some body,
          { st with proxy := create_proxy_scraper st.proxy
                    ridx := st.ridx + 2 + 2
                    trace := st.trace ++ [Ev.getScraper, Ev.httpGet 0, Ev.sleepFor w₀,
                      Ev.httpGet 1, Ev.sleepFor w₁, Ev.httpGet 2] }) ∧
      10 ≤ w₀ ∧ 10 ≤ w₁ := by
  refine ⟨uniformDraw 10 30 (u st.ridx),
    uniformDraw 10 30 (u (st.ridx + 2)) + uniformDraw 5 15 (u (st.ridx + 2 + 1)),
    fetch_429_429_200_run u st body, ?_, ?_⟩
  · have h := hu st.ridx
    rw [uniformDraw]
    nlinarith [h.1, h.2]
  · have h2 := hu (st.ridx + 2)
    have h3 := hu (st.ridx + 2 + 1)
    rw [uniformDraw, uniformDraw]
    nlinarith [h2.1, h2.2, h3.1, h3.2]

/-- Witness for C5: concrete stream 1/2 and a concrete worker state; the
fetch returns the body with the two rate-limit sleeps in the trace. -/
theorem fetch_429_backoff_no_rotation_witness :
    ∃ w₀ w₁,
      fetch_html_with_backoff (constU (1/2)) (resps429twice "doc") 3 cwSt =
        (some "doc",
          { cwSt with proxy := create_proxy_scraper cwSt.proxy
                      ridx := cwSt.ridx + 2 + 2
                      trace := cwSt.trace ++ [Ev.getScraper, Ev.httpGet 0, Ev.sleepFor w₀,
                        Ev.httpGet 1, Ev.sleepFor w₁, Ev.httpGet 2] }) ∧
      10 ≤ w₀ ∧ 10 ≤ w₁ :=
  fetch_429_backoff_no_rotation (constU (1/2))
    (fun _ => ⟨by norm_num [constU], by norm_num [constU]⟩) cwSt "doc"

/-! ## C6 -/

theorem fetch_503_run (u : Nat → ℚ) (st : WSt) :
    fetch_html_with_backoff u resps503 3 st =
      (none,
        { st with
            proxy := create_proxy_scraper (mark_proxy_failed (create_proxy_scraper
              (mark_proxy_failed (create_proxy_scraper (mark_proxy_failed
                (create_proxy_scraper st.proxy))))))
            ridx := st.ridx + 1 + 1 + 1
            trace := st.trace ++ [Ev.getScraper, Ev.httpGet 0, Ev.markFailedCall,
              Ev.sleepFor (uniformDraw 5 15 (u st.ridx)), Ev.getScraper,
              Ev.httpGet 1, Ev.markFailedCall,
              Ev.sleepFor (uniformDraw 5 15 (u (st.ridx + 1))), Ev.getScraper,
              Ev.httpGet 2, Ev.markFailedCall,
              Ev.sleepFor (uniformDraw 5 15 (u (st.ridx + 1 + 1))), Ev.getScraper] }) := by
  rw [fetch_html_with_backoff, show List.range 3 = [0, 1, 2] from rfl]
  simp [fetchLoop, resps503]

/-- Claim C6 (amended): on the response sequence [503, 503, 503] the fetch
exhausts its 3-attempt budget and returns no document, `mark_proxy_failed`
is called exactly once per 503 (3 calls), and no Entry insert is attempted
in the iteration; the worker then abandons the Term exactly when the
give-up draw (`random.random()` of line 455, the stream value at
`giveUpDrawIdx`) is below 0.7 — queue unchanged, give-up event traced, no
new re-push event — and otherwise re-pushes the Term to the tail of the
frontier queue for a later retry. -/
theorem iteration_503_no_persist (u : Nat → ℚ) (parse : Term → String → List Lemma)
    (ins : Lemma → Except PyExc Unit) (store : Term → Except MongoErr Bool)
    (word : Term) (st : WSt) (hskip : ¬ u st.ridx < 3/100) :
    (∀ st₀ : WSt, (fetch_html_with_backoff u resps503 3 st₀).1 = none) ∧
    (mainIteration u resps503 parse ins store word st).trace.count Ev.markFailedCall
      = st.trace.count Ev.markFailedCall + 3 ∧
    (∀ t : Term,
      Ev.insertAttempt t ∈ (mainIteration u resps503 parse ins store word st).trace →
      Ev.insertAttempt t ∈ st.trace) ∧
    (u (giveUpDrawIdx u st) < 7/10 →
      (mainIteration u resps503 parse ins store word st).wordQueue = st.wordQueue ∧
      Ev.giveUpWord word ∈ (mainIteration u resps503 parse ins store word st).trace ∧
      (Ev.requeueWord word ∈ (mainIteration u resps503 parse ins store word st).trace →
        Ev.requeueWord word ∈ st.trace)) ∧
    (¬ u (giveUpDrawIdx u st) < 7/10 →
      (mainIteration u resps503 parse ins store word st).wordQueue = st.wordQueue ++ [word] ∧
      Ev.requeueWord word ∈ (mainIteration u resps503 parse ins store word st).trace) := by
  refine ⟨fun st₀ => by rw [fetch_503_run], ?_⟩
  rw [mainIteration, if_neg hskip, human_like_delay]
  by_cases hch : u (st.ridx + 1 + 1) < 3/20
  · have hidx : giveUpDrawIdx u st = st.ridx + 1 + 3 + 1 + 1 + 1 := by
      simp [giveUpDrawIdx, human_like_delay, hch]
    rw [if_pos hch, hidx]
    simp only [fetch_503_run]
    by_cases hg : u (st.ridx + 1 + 3 + 1 + 1 + 1) < 7/10
    · simp only [if_pos hg]
      refine ⟨?_, ?_, ?_, ?_⟩
      · simp [List.count_append, List.count_cons]
      · intro t ht
        simp only [List.append_assoc, List.mem_append, List.mem_cons] at ht
        rcases ht with h | h
        · exact h
        · simp at h
      · refine fun _ => ⟨by trivial, by simp, ?_⟩
        intro ht
        simp only [List.append_assoc, List.mem_append, List.mem_cons] at ht
        rcases ht with h | h
        · exact h
        · simp at h
      · exact fun hc => absurd hg hc
    · simp only [if_neg hg]
      refine ⟨?_, ?_, ?_, ?_⟩
      · simp [List.count_append, List.count_cons]
      · intro t ht
        simp only [List.append_assoc, List.mem_append, List.mem_cons] at ht
        rcases ht with h | h
        · exact h
        · simp at h
      · exact fun hc => absurd hc hg
      · exact fun _ => ⟨by trivial, by simp⟩
  · have hidx : giveUpDrawIdx u st = st.ridx + 1 + 2 + 1 + 1 + 1 := by
      simp [giveUpDrawIdx, human_like_delay, hch]
    rw [if_neg hch, hidx]
    simp only [fetch_503_run]
    by_cases hg : u (st.ridx + 1 + 2 + 1 + 1 + 1) < 7/10
    · simp only [if_pos hg]
      refine ⟨?_, ?_, ?_, ?_⟩
      · simp [List.count_append, List.count_cons]
      · intro t ht
        simp only [List.append_assoc, List.mem_append, List.mem_cons] at ht
        rcases ht with h | h
        · exact h
        · simp at h
      · refine fun _ => ⟨by trivial, by simp, ?_⟩
        intro ht
        simp only [List.append_assoc, List.mem_append, List.mem_cons] at ht
        rcases ht with h | h
        · exact h
        · simp at h
      · exact fun hc => absurd hg hc
    · simp only [if_neg hg]
      refine ⟨?_, ?_, ?_, ?_⟩
      · simp [List.count_append, List.count_cons]
      · intro t ht
        simp only [List.append_assoc, List.mem_append, List.mem_cons] at ht
        rcases ht with h | h
        · exact h
        · simp at h
      · exact fun hc => absurd hc hg
      · exact fun _ => ⟨by trivial, by simp⟩

/-- Counterexample to claim C6 as stated: with give-up draw 4/5 (at least
0.7), after [503, 503, 503] the worker does NOT abandon the Term — it
re-pushes it to the tail of the frontier queue (`scraper.py` lines
458-461), so "the worker abandons the Term" fails on this input. -/
theorem iteration_503_requeues_counterexample :
    (mainIteration (constU (4/5)) resps503 noParse okInsert okStore cwWord cwSt).wordQueue
      = [cwWord] ∧
    Ev.requeueWord cwWord ∈
      (mainIteration (constU (4/5)) resps503 noParse okInsert okStore cwWord cwSt).trace := by
  rw [mainIteration, if_neg (by norm_num [constU]), human_like_delay,
    if_neg (by norm_num [constU])]
  simp only [fetch_503_run]
  rw [if_neg (by norm_num [constU])]
  constructor
  · simp [cwSt, cwWord]
  · simp

/-- Witness for the amended C6 at concrete inputs, exhibiting the abandon
branch: with every draw 1/2 the give-up draw is below 0.7, so after
[503, 503, 503] (3 markFailed calls, no document) the Term is abandoned —
queue unchanged and the give-up event traced. -/
theorem iteration_503_no_persist_witness :
    (∀ st₀ : WSt, (fetch_html_with_backoff (constU (1/2)) resps503 3 st₀).1 = none) ∧
    (mainIteration (constU (1/2)) resps503 noParse okInsert okStore cwWord cwSt).trace.count
        Ev.markFailedCall
      = cwSt.trace.count Ev.markFailedCall + 3 ∧
    (mainIteration (constU (1/2)) resps503 noParse okInsert okStore cwWord cwSt).wordQueue
      = cwSt.wordQueue ∧
    Ev.giveUpWord cwWord ∈
      (mainIteration (constU (1/2)) resps503 noParse okInsert okStore cwWord cwSt).trace := by
  have h := iteration_503_no_persist (constU (1/2)) noParse okInsert okStore cwWord cwSt
    (by norm_num [constU])
  have hg : constU (1/2) (giveUpDrawIdx (constU (1/2)) cwSt) < 7/10 := by
    norm_num [constU]
  exact ⟨h.1, h.2.1, (h.2.2.2.1 hg).1, (h.2.2.2.1 hg).2.1⟩
